import Mathlib

/-!
Verification of the identity/authentication core of `govproposal`
(`backend/src/govproposal/identity/`): a shallow embedding of
`security.py`, `repository.py`, `permissions.py` and the `AuthService`
layer of `service.py`, followed by theorems settling the specified
properties.

Modelling conventions:
* time is an abstract instant counted in minutes (`Nat`); `datetime.now()`
  is passed in as a `now` parameter;
* nullable columns are `Option Nat` / `Option String`;
* SHA-256 digests and the Argon2id password hash are idealized as
  injective encodings of their input (collision-freeness assumption);
  the normalization performed before hashing is embedded faithfully;
* a JWT is a record of its claims plus a `wellSigned` flag standing for
  signature verification against the server key; PyJWT's decode order
  (signature first, then `exp`) is kept;
* each stateful `AuthService` method becomes a function
  `DB → ... → DB × Except AuthError α`, threading the database through
  and returning mutations performed before an exception was raised
  (SQLAlchemy `flush` semantics at the service layer);
* randomness (fresh `jti` values, row ids) is passed in as parameters.
-/

namespace GovProposal

/-- Argon2id hash of a password (`security.hash_password`), idealized as an
injective encoding of the password: the salt and cost parameters are not
observable through `verify_password`. -/
structure PasswordHash where
  pw : String
  deriving DecidableEq

/-- Embeds `security.hash_password`. -/
def hash_password (password : String) : PasswordHash := ⟨password⟩

/-- Embeds `security.verify_password`: returns `false` on mismatch, never
throws. -/
def verify_password (password : String) (h : PasswordHash) : Bool :=
  password == h.pw

/-- SHA-256 hex digest, idealized as an injective encoding of its input. -/
def sha256_hex (s : String) : String := s

/-- Python `str.lower()` over the character list (kernel-reducible form of
ASCII lower-casing). -/
def str_lower (s : String) : String := ⟨s.data.map Char.toLower⟩

/-- Embeds `security.hash_recovery_code`: strip the dash separators and
upper-case (Python `code.replace("-", "").upper()`) before hashing. -/
def hash_recovery_code (code : String) : String :=
  sha256_hex ⟨(code.data.filter (fun c => c ≠ '-')).map Char.toUpper⟩

/-- Embeds `security.verify_recovery_code`. -/
def verify_recovery_code (code : String) (code_hash : String) : Bool :=
  hash_recovery_code code == code_hash

/-- The `type` claim of a JWT issued by `security.py`. -/
inductive TokenType
  | access
  | refresh
  | mfa_pending
  deriving DecidableEq

/-- A JWT as issued and consumed by `security.py`: the claims plus a flag
recording whether the signature verifies under the server key. The `jti`
claim is `0` for token kinds that do not carry one. -/
structure Token where
  sub : Nat
  iat : Nat
  exp : Nat
  typ : TokenType
  jti : Nat
  wellSigned : Bool
  deriving DecidableEq

/-- `settings.jwt_access_token_expire_minutes` (config.py default). -/
def jwt_access_token_expire_minutes : Nat := 30

/-- `settings.jwt_refresh_token_expire_days` (config.py default). -/
def jwt_refresh_token_expire_days : Nat := 7

/-- Minutes in a day, to express day-valued TTLs in the minute time base. -/
def minutes_per_day : Nat := 1440

/-- Embeds `security.create_access_token` with the default TTL. -/
def create_access_token (user_id now : Nat) : Token :=
  { sub := user_id
    iat := now
    exp := now + jwt_access_token_expire_minutes
    typ := .access
    jti := 0
    wellSigned := true }

/-- Embeds `security.create_refresh_token` with the default TTL; the random
`jti` is passed in. -/
def create_refresh_token (user_id now jti : Nat) : Token :=
  { sub := user_id
    iat := now
    exp := now + jwt_refresh_token_expire_days * minutes_per_day
    typ := .refresh
    jti := jti
    wellSigned := true }

/-- Embeds `security.create_mfa_token` (5-minute TTL). -/
def create_mfa_token (user_id now : Nat) : Token :=
  { sub := user_id
    iat := now
    exp := now + 5
    typ := .mfa_pending
    jti := 0
    wellSigned := true }

/-- Failure of PyJWT's `jwt.decode` as distinguished by its exception
classes: `ExpiredSignature` is `jwt.ExpiredSignatureError`, `Invalid`
collects every other `jwt.InvalidTokenError` (bad signature, malformed
token, wrong `type` claim). -/
inductive JWTError
  | ExpiredSignature
  | Invalid
  deriving DecidableEq

/-- Embeds `security.decode_token`: signature check first (failure is a
generic invalid-token error), then the `exp` claim (`ExpiredSignatureError`
when `exp` is not in the future). -/
def decode_token (now : Nat) (t : Token) : Except JWTError Token :=
  if ¬ t.wellSigned then .error .Invalid
  else if t.exp ≤ now then .error .ExpiredSignature
  else .ok t

/-- Embeds `security.validate_refresh_token`: decode, then require the
`type` claim to be `refresh`. -/
def validate_refresh_token (now : Nat) (t : Token) : Except JWTError Token :=
  match decode_token now t with
  | .error e => .error e
  | .ok p => if p.typ ≠ .refresh then .error .Invalid else .ok p

/-- Embeds `security.validate_mfa_token`: decode, then require the `type`
claim to be `mfa_pending`. -/
def validate_mfa_token (now : Nat) (t : Token) : Except JWTError Token :=
  match decode_token now t with
  | .error e => .error e
  | .ok p => if p.typ ≠ .mfa_pending then .error .Invalid else .ok p

/-- SHA-256 of the serialized token (`security.hash_token`), idealized as
injective: the digest is represented by the token itself. -/
def hash_token (t : Token) : Token := t

/-- The `users` row (`models.User`), restricted to the columns the identity
core reads or writes. -/
structure User where
  id : Nat
  email : String
  password_hash : PasswordHash
  is_active : Bool := true
  mfa_enabled : Bool := false
  mfa_secret : Option Nat := none
  mfa_required : Bool := false
  platform_role : String := "basic"
  failed_login_attempts : Nat := 0
  locked_until : Option Nat := none
  last_password_change : Option Nat := none
  deriving DecidableEq

/-- The `user_sessions` row (`models.UserSession`). -/
structure SessionRow where
  id : Nat
  user_id : Nat
  token_hash : Token
  expires_at : Nat
  revoked_at : Option Nat := none
  ip_address : Option String := none
  user_agent : Option String := none
  deriving DecidableEq

/-- The `mfa_recovery_codes` row (`models.MFARecoveryCode`). -/
structure MFARecoveryCode where
  id : Nat
  user_id : Nat
  code_hash : String
  used_at : Option Nat := none
  deriving DecidableEq

/-- The `password_reset_tokens` row (`models.PasswordResetToken`). -/
structure PasswordResetToken where
  id : Nat
  user_id : Nat
  token_hash : String
  expires_at : Nat
  used_at : Option Nat := none
  deriving DecidableEq

/-- The relational store seen by the identity repositories; `next_id` feeds
fresh primary keys for newly inserted rows. -/
structure DB where
  users : List User
  sessions : List SessionRow
  recovery_codes : List MFARecoveryCode
  reset_tokens : List PasswordResetToken
  next_id : Nat := 0
  deriving DecidableEq

/-- Embeds `UserRepository.get_by_email` (the repository lower-cases the
argument before comparing). -/
def get_by_email (db : DB) (email : String) : Option User :=
  db.users.find? (fun u => u.email == str_lower email)

/-- Embeds `UserRepository.get_by_id`. -/
def get_user_by_id (db : DB) (uid : Nat) : Option User :=
  db.users.find? (fun u => u.id == uid)

/-- Embeds `UserRepository.update` flushing an in-place mutation of the ORM
`User` object: every row with the object's id takes the new column values. -/
def update_user (db : DB) (u : User) : DB :=
  { db with users := db.users.map (fun v => if v.id == u.id then u else v) }

/-- Embeds `UserSessionRepository.create`. -/
def create_session_row (db : DB) (uid : Nat) (th : Token) (expires_at : Nat)
    (ip ua : Option String) : DB :=
  { db with
    sessions := db.sessions ++
      [{ id := db.next_id
         user_id := uid
         token_hash := th
         expires_at := expires_at
         revoked_at := none
         ip_address := ip
         user_agent := ua }]
    next_id := db.next_id + 1 }

/-- Embeds `UserSessionRepository.get_by_token_hash`: the query filters on
the hash and on `revoked_at IS NULL`. -/
def get_by_token_hash (db : DB) (th : Token) : Option SessionRow :=
  db.sessions.find? (fun s => s.token_hash == th && s.revoked_at == none)

/-- Embeds `UserSessionRepository.revoke` flushing `revoked_at = now` on the
ORM object with the given id. -/
def revoke_session (db : DB) (sid : Nat) (now : Nat) : DB :=
  { db with
    sessions := db.sessions.map (fun s =>
      if s.id == sid then { s with revoked_at := some now } else s) }

/-- Embeds `UserSessionRepository.revoke_all_user_sessions` with no
`except_session_id` (how the service calls it): every unrevoked session of
the user gets `revoked_at = now`. -/
def revoke_all_user_sessions (db : DB) (uid : Nat) (now : Nat) : DB :=
  { db with
    sessions := db.sessions.map (fun s =>
      if s.user_id == uid && s.revoked_at == none
      then { s with revoked_at := some now } else s) }

/-- Embeds `MFARecoveryCodeRepository.get_unused_codes`: the user's rows
with `used_at IS NULL`. -/
def get_unused_codes (db : DB) (uid : Nat) : List MFARecoveryCode :=
  db.recovery_codes.filter (fun c => c.user_id == uid && c.used_at == none)

/-- Embeds `MFARecoveryCodeRepository.mark_used` flushing `used_at = now` on
the ORM object with the given id. -/
def mark_code_used (db : DB) (cid : Nat) (now : Nat) : DB :=
  { db with
    recovery_codes := db.recovery_codes.map (fun c =>
      if c.id == cid then { c with used_at := some now } else c) }

/-- Embeds `PasswordResetRepository.get_by_hash`. -/
def get_reset_by_hash (db : DB) (th : String) : Option PasswordResetToken :=
  db.reset_tokens.find? (fun r => r.token_hash == th)

/-- Embeds `PasswordResetRepository.mark_used`. -/
def mark_reset_used (db : DB) (rid : Nat) (now : Nat) : DB :=
  { db with
    reset_tokens := db.reset_tokens.map (fun r =>
      if r.id == rid then { r with used_at := some now } else r) }

/-- The typed exceptions of `identity/exceptions.py` that `AuthService`
raises; `MFARequired` carries the minted `mfa_pending` token and
`AccountLocked` the lock-expiry instant, as the Python exceptions do. -/
inductive AuthError
  | InvalidCredentials
  | AccountLocked (locked_until : Nat)
  | MFARequired (mfa_token : Token)
  | InvalidMFACode
  | InvalidToken
  | TokenExpired
  | UserNotFound
  deriving DecidableEq

/-- `schemas.TokenResponse`. -/
structure TokenResponse where
  access_token : Token
  refresh_token : Token
  deriving DecidableEq

/-- `AuthService.MAX_FAILED_ATTEMPTS`. -/
def MAX_FAILED_ATTEMPTS : Nat := 5

/-- `AuthService.LOCKOUT_DURATION_MINUTES`. -/
def LOCKOUT_DURATION_MINUTES : Nat := 30

/-- The lockout test of `AuthService.login`:
`user.locked_until and user.locked_until > now`. -/
def lockActive (locked_until : Option Nat) (now : Nat) : Bool :=
  match locked_until with
  | some lu => now < lu
  | none => false

/-- Embeds `AuthService._create_tokens`: mint an access and a refresh token
and persist a session row whose `token_hash` is the hash of the refresh
token and whose `expires_at` is seven days out. The fresh random `jti` of
the refresh token is a parameter. -/
def create_tokens (db : DB) (u : User) (now jti : Nat) (ip ua : Option String) :
    DB × TokenResponse :=
  let access := create_access_token u.id now
  let refreshTok := create_refresh_token u.id now jti
  let expires_at := now + 7 * minutes_per_day
  let db1 := create_session_row db u.id (hash_token refreshTok) expires_at ip ua
  (db1, { access_token := access, refresh_token := refreshTok })

/-- Embeds `AuthService._handle_failed_login`: increment
`failed_login_attempts`; if the post-increment count reaches
`MAX_FAILED_ATTEMPTS`, set `locked_until = now + LOCKOUT_DURATION_MINUTES`;
flush the user row. -/
def handle_failed_login (db : DB) (user : User) (now : Nat) : DB :=
  let u1 := { user with failed_login_attempts := user.failed_login_attempts + 1 }
  let u2 :=
    if MAX_FAILED_ATTEMPTS ≤ u1.failed_login_attempts
    then { u1 with locked_until := some (now + LOCKOUT_DURATION_MINUTES) }
    else u1
  update_user db u2

/-- Embeds `AuthService.login`. The Python returns a `TokenResponse` or
raises (`InvalidCredentialsError`, `AccountLockedError`,
`MFARequiredError`); flushed row updates performed before a raise are kept
in the returned store. -/
def login (db : DB) (now : Nat) (email password : String) (jti : Nat)
    (ip ua : Option String) : DB × Except AuthError TokenResponse :=
  match get_by_email db (str_lower email) with
  | none => (db, .error .InvalidCredentials)
  | some user =>
    if lockActive user.locked_until now then
      (db, .error (.AccountLocked (user.locked_until.getD 0)))
    else if ¬ verify_password password user.password_hash then
      (handle_failed_login db user now, .error .InvalidCredentials)
    else
      let u1 := { user with failed_login_attempts := 0, locked_until := none }
      let db1 := update_user db u1
      if u1.mfa_enabled then
        (db1, .error (.MFARequired (create_mfa_token u1.id now)))
      else
        let (db2, tr) := create_tokens db1 u1 now jti ip ua
        (db2, .ok tr)

/-- Embeds `AuthService.verify_mfa_login`. TOTP verification
(`security.verify_totp`, i.e. `pyotp.TOTP(secret).verify(code, 1)`) is an
external crypto primitive, abstracted as the oracle `totp_ok`. Any failure
of `validate_mfa_token` is caught and re-raised as `InvalidTokenError`. -/
def verify_mfa_login (db : DB) (now : Nat) (totp_ok : Nat → String → Bool)
    (mfa_token : Token) (code : String) (jti : Nat) (ip ua : Option String) :
    DB × Except AuthError TokenResponse :=
  match validate_mfa_token now mfa_token with
  | .error _ => (db, .error .InvalidToken)
  | .ok payload =>
    match get_user_by_id db payload.sub with
    | none => (db, .error .InvalidToken)
    | some user =>
      match user.mfa_secret with
      | none => (db, .error .InvalidToken)
      | some secret =>
        if ¬ totp_ok secret code then (db, .error .InvalidMFACode)
        else
          let (db1, tr) := create_tokens db user now jti ip ua
          (db1, .ok tr)

/-- Embeds `AuthService.verify_recovery_code_login`: validate the
`mfa_pending` token (any failure becomes `InvalidTokenError`), fetch the
user's unused recovery codes, and on the first hash match mark that record
used and issue tokens; otherwise raise `InvalidMFACodeError`. -/
def verify_recovery_code_login (db : DB) (now : Nat) (mfa_token : Token)
    (recovery_code : String) (jti : Nat) (ip ua : Option String) :
    DB × Except AuthError TokenResponse :=
  match validate_mfa_token now mfa_token with
  | .error _ => (db, .error .InvalidToken)
  | .ok payload =>
    match get_user_by_id db payload.sub with
    | none => (db, .error .InvalidToken)
    | some user =>
      match (get_unused_codes db user.id).find?
          (fun c => verify_recovery_code recovery_code c.code_hash) with
      | none => (db, .error .InvalidMFACode)
      | some rec =>
        let db1 := mark_code_used db rec.id now
        let (db2, tr) := create_tokens db1 user now jti ip ua
        (db2, .ok tr)

/-- Embeds `AuthService.refresh_tokens`. Note the source catches every
failure of `validate_refresh_token` and re-raises `TokenExpiredError`; the
session lookup already filters out revoked rows, and the session row's
`expires_at` is never consulted. -/
def refresh_tokens (db : DB) (now : Nat) (t : Token) (jti : Nat)
    (ip ua : Option String) : DB × Except AuthError TokenResponse :=
  match validate_refresh_token now t with
  | .error _ => (db, .error .TokenExpired)
  | .ok payload =>
    match get_by_token_hash db (hash_token t) with
    | none => (db, .error .InvalidToken)
    | some sess =>
      match get_user_by_id db payload.sub with
      | none => (db, .error .InvalidToken)
      | some user =>
        if ¬ user.is_active then (db, .error .InvalidToken)
        else
          let db1 := revoke_session db sess.id now
          let (db2, tr) := create_tokens db1 user now jti ip ua
          (db2, .ok tr)

/-- Embeds `AuthService.change_password`: verify the current password,
then update `password_hash` and `last_password_change` and flush the user
row. No other column is written and no session is touched. -/
def change_password (db : DB) (now : Nat) (user : User)
    (current_password new_password : String) : DB × Except AuthError Unit :=
  if ¬ verify_password current_password user.password_hash then
    (db, .error .InvalidCredentials)
  else
    let u1 := { user with
      password_hash := hash_password new_password
      last_password_change := some now }
    (update_user db u1, .ok ())

/-- Embeds `AuthService.confirm_password_reset`: look up the reset token by
hash, reject used or absent tokens with `InvalidTokenError` and expired
ones with `TokenExpiredError`, then update the password, zero the lockout
counters, mark the token used and revoke every session of the user. -/
def confirm_password_reset (db : DB) (now : Nat) (token new_password : String) :
    DB × Except AuthError Unit :=
  match get_reset_by_hash db (sha256_hex token) with
  | none => (db, .error .InvalidToken)
  | some rt =>
    if rt.used_at ≠ none then (db, .error .InvalidToken)
    else if rt.expires_at < now then (db, .error .TokenExpired)
    else
      match get_user_by_id db rt.user_id with
      | none => (db, .error .UserNotFound)
      | some user =>
        let u1 := { user with
          password_hash := hash_password new_password
          last_password_change := some now
          failed_login_attempts := 0
          locked_until := none }
        let db1 := update_user db u1
        let db2 := mark_reset_used db1 rt.id now
        let db3 := revoke_all_user_sessions db2 user.id now
        (db3, .ok ())

/-- The closed permission enumeration of `permissions.Permission`. -/
inductive Permission
  | PROPOSAL_VIEW
  | PROPOSAL_EDIT
  | PROPOSAL_DELETE
  | PROPOSAL_CREATE
  | ANALYSIS_RUN
  | ANALYSIS_VIEW
  | ANALYSIS_EXPORT
  | ORG_USERS_MANAGE
  | ORG_SETTINGS_MANAGE
  | ORG_AUDIT_VIEW
  | ORG_TEMPLATES_MANAGE
  | PLATFORM_CONFIG
  | PLATFORM_TENANTS
  | PLATFORM_AUDIT
  | PLATFORM_FEATURES
  deriving DecidableEq

/-- `permissions.MEMBER_PERMISSIONS`. -/
def MEMBER_PERMISSIONS : Finset Permission :=
  {Permission.PROPOSAL_VIEW, Permission.PROPOSAL_EDIT,
   Permission.ANALYSIS_RUN, Permission.ANALYSIS_VIEW}

/-- `permissions.ADMIN_PERMISSIONS` (member's set unioned with the admin
additions, as in the source). -/
def ADMIN_PERMISSIONS : Finset Permission :=
  MEMBER_PERMISSIONS ∪
  {Permission.PROPOSAL_CREATE, Permission.PROPOSAL_DELETE,
   Permission.ANALYSIS_EXPORT, Permission.ORG_USERS_MANAGE,
   Permission.ORG_SETTINGS_MANAGE, Permission.ORG_AUDIT_VIEW,
   Permission.ORG_TEMPLATES_MANAGE}

/-- `permissions.OWNER_PERMISSIONS` (aliased to the admin set). -/
def OWNER_PERMISSIONS : Finset Permission := ADMIN_PERMISSIONS

/-- `permissions.SUPER_USER_PERMISSIONS`. -/
def SUPER_USER_PERMISSIONS : Finset Permission :=
  {Permission.PLATFORM_CONFIG, Permission.PLATFORM_TENANTS,
   Permission.PLATFORM_AUDIT, Permission.PLATFORM_FEATURES}

/-- Embeds `permissions.get_permissions_for_role`: union in the org tier
selected by the (dynamic string) org role, then the platform tier. -/
def get_permissions_for_role (org_role : Option String) (platform_role : String) :
    Finset Permission :=
  let p0 : Finset Permission := ∅
  let p1 :=
    if org_role = some "member" then p0 ∪ MEMBER_PERMISSIONS
    else if org_role = some "admin" then p0 ∪ ADMIN_PERMISSIONS
    else if org_role = some "owner" then p0 ∪ OWNER_PERMISSIONS
    else p0
  if platform_role = "super_user" then p1 ∪ SUPER_USER_PERMISSIONS else p1

/-- Embeds `permissions.has_permission`. -/
def has_permission (p : Permission) (org_role : Option String)
    (platform_role : String) : Prop :=
  p ∈ get_permissions_for_role org_role platform_role

/-! ### Helper lemmas -/

/-- Characterization of a successful `validate_refresh_token`. -/
theorem validate_refresh_token_ok_iff (now : Nat) (t p : Token) :
    validate_refresh_token now t = .ok p ↔
      p = t ∧ t.wellSigned = true ∧ now < t.exp ∧ t.typ = .refresh := by
  unfold validate_refresh_token decode_token
  by_cases hw : t.wellSigned
  · by_cases he : t.exp ≤ now
    · simp [hw, he, Nat.not_lt.mpr he]
    · by_cases ht : t.typ = .refresh
      · simp [hw, he, ht, Nat.lt_of_not_le he, eq_comm]
      · simp [hw, he, ht]
  · simp [hw]

/-- Characterization of a successful `validate_mfa_token`. -/
theorem validate_mfa_token_ok_iff (now : Nat) (t p : Token) :
    validate_mfa_token now t = .ok p ↔
      p = t ∧ t.wellSigned = true ∧ now < t.exp ∧ t.typ = .mfa_pending := by
  unfold validate_mfa_token decode_token
  by_cases hw : t.wellSigned
  · by_cases he : t.exp ≤ now
    · simp [hw, he, Nat.not_lt.mpr he]
    · by_cases ht : t.typ = .mfa_pending
      · simp [hw, he, ht, Nat.lt_of_not_le he, eq_comm]
      · simp [hw, he, ht]
  · simp [hw]

/-- Replacing, in a list of users, every row whose id matches keeps the
email lookup pointed at the replacement, provided the replacement keeps the
id and the email. -/
theorem find?_email_update (l : List User) (q : String) (u u2 : User)
    (hfind : l.find? (fun v => v.email == q) = some u)
    (hid : u2.id = u.id) (hem : u2.email = u.email) :
    (l.map (fun v => if v.id == u2.id then u2 else v)).find?
      (fun v => v.email == q) = some u2 := by
  have hpu : (u.email == q) = true := by
    simpa using List.find?_some hfind
  have hpu2 : (u2.email == q) = true := by rw [hem]; exact hpu
  induction l with
  | nil => simp at hfind
  | cons a l ih =>
    by_cases hpa : (a.email == q) = true
    · have hua : a = u := by
        simp only [List.find?_cons, hpa] at hfind
        exact Option.some.inj hfind
      have hbeq : (a.id == u2.id) = true := by simp [hua, hid]
      simp only [List.map_cons, List.find?_cons, hbeq, if_true, hpu2]
    · simp only [List.find?_cons, hpa] at hfind
      by_cases hida : (a.id == u2.id) = true
      · simp only [List.map_cons, List.find?_cons, hida, if_true, hpu2]
      · rw [Bool.not_eq_true] at hida
        simp only [List.map_cons, List.find?_cons, hida, if_false,
          Bool.false_eq_true, hpa]
        exact ih hfind

/-- `get_by_email` keeps finding the freshly flushed user object after an
`update_user`, when the update keeps id and email. -/
theorem get_by_email_update_user (db : DB) (e : String) (u u2 : User)
    (hfind : get_by_email db e = some u)
    (hid : u2.id = u.id) (hem : u2.email = u.email) :
    get_by_email (update_user db u2) e = some u2 := by
  unfold get_by_email update_user at *
  exact find?_email_update db.users (str_lower e) u u2 hfind hid hem

/-- A `find?` hit is forced when one element matches and every matching
element is equal to it. -/
theorem find?_eq_some_of_unique {α : Type} (l : List α) (p : α → Bool) (a : α)
    (hmem : a ∈ l) (hpa : p a = true)
    (huniq : ∀ x ∈ l, p x = true → x = a) :
    l.find? p = some a := by
  induction l with
  | nil => simp at hmem
  | cons b l ih =>
    by_cases hpb : p b = true
    · have hba : b = a := huniq b (by simp) hpb
      simp only [List.find?_cons, hba, hpa]
    · rw [Bool.not_eq_true] at hpb
      simp only [List.find?_cons, hpb, Bool.false_eq_true]
      have hmem2 : a ∈ l := by
        rcases List.mem_cons.mp hmem with h | h
        · rw [h] at hpa
          rw [hpa] at hpb
          exact absurd hpb (by simp)
        · exact h
      exact ih hmem2 (fun x hx hpx => huniq x (List.mem_cons_of_mem _ hx) hpx)

/-- Equation for `login` when the account is currently locked. -/
theorem login_locked_eq (db : DB) (now : Nat) (e pw : String) (jti : Nat)
    (ip ua : Option String) (u : User)
    (hfind : get_by_email db (str_lower e) = some u)
    (hl : lockActive u.locked_until now = true) :
    login db now e pw jti ip ua =
      (db, .error (.AccountLocked (u.locked_until.getD 0))) := by
  unfold login
  rw [hfind]
  simp [hl]

/-- Equation for `login` on a wrong password. -/
theorem login_bad_password_eq (db : DB) (now : Nat) (e pw : String) (jti : Nat)
    (ip ua : Option String) (u : User)
    (hfind : get_by_email db (str_lower e) = some u)
    (hl : lockActive u.locked_until now = false)
    (hbad : verify_password pw u.password_hash = false) :
    login db now e pw jti ip ua =
      (handle_failed_login db u now, .error .InvalidCredentials) := by
  unfold login
  rw [hfind]
  simp [hl, hbad]

/-- Equation for `login` on a correct password with MFA enabled: the
lockout columns are zeroed and the MFA-required signal is raised. -/
theorem login_good_mfa_eq (db : DB) (now : Nat) (e pw : String) (jti : Nat)
    (ip ua : Option String) (u : User)
    (hfind : get_by_email db (str_lower e) = some u)
    (hl : lockActive u.locked_until now = false)
    (hgood : verify_password pw u.password_hash = true)
    (hmfa : u.mfa_enabled = true) :
    login db now e pw jti ip ua =
      (update_user db { u with failed_login_attempts := 0, locked_until := none },
       .error (.MFARequired (create_mfa_token u.id now))) := by
  unfold login
  rw [hfind]
  simp [hl, hgood, hmfa]

/-- Equation for `login` on a correct password with MFA disabled: the
lockout columns are zeroed, tokens are issued and a session is persisted. -/
theorem login_good_nomfa_eq (db : DB) (now : Nat) (e pw : String) (jti : Nat)
    (ip ua : Option String) (u : User)
    (hfind : get_by_email db (str_lower e) = some u)
    (hl : lockActive u.locked_until now = false)
    (hgood : verify_password pw u.password_hash = true)
    (hmfa : u.mfa_enabled = false) :
    login db now e pw jti ip ua =
      (create_session_row
        (update_user db { u with failed_login_attempts := 0, locked_until := none })
        u.id (hash_token (create_refresh_token u.id now jti))
        (now + 7 * minutes_per_day) ip ua,
       .ok { access_token := create_access_token u.id now,
             refresh_token := create_refresh_token u.id now jti }) := by
  unfold login
  rw [hfind]
  simp [hl, hgood, hmfa, create_tokens]

/-! ### Claim theorems -/

/-- C8: permission resolution is monotonic in role rank. For every platform
role, the member set is contained in the admin set, the admin set in the
owner set, owner equals admin; and for every org role (including none and
unrecognized strings) the super-user permissions are contained in the
resolution for platform role super_user. -/
theorem permission_resolution_monotonic :
    (∀ pr : String,
      get_permissions_for_role (some "member") pr ⊆
        get_permissions_for_role (some "admin") pr ∧
      get_permissions_for_role (some "admin") pr ⊆
        get_permissions_for_role (some "owner") pr ∧
      get_permissions_for_role (some "owner") pr =
        get_permissions_for_role (some "admin") pr) ∧
    (∀ org_role : Option String,
      SUPER_USER_PERMISSIONS ⊆ get_permissions_for_role org_role "super_user") := by
  constructor
  · intro pr
    by_cases h : pr = "super_user"
    · subst h
      refine ⟨?_, ?_, ?_⟩ <;> decide
    · simp only [get_permissions_for_role, if_neg h]
      refine ⟨?_, ?_, ?_⟩ <;> decide
  · intro org_role
    simp only [get_permissions_for_role, if_pos rfl]
    exact Finset.subset_union_right

/-- C9: login never consults `is_active`: a deactivated account with the
correct password, MFA disabled and no active lockout receives access and
refresh tokens; whereas `refresh_tokens` rejects the same deactivated
account with `InvalidToken` even when the refresh token validates and its
session is unrevoked. -/
theorem login_ignores_is_active :
    (∀ (db : DB) (now : Nat) (e pw : String) (jti : Nat) (ip ua : Option String)
      (u : User),
      get_by_email db (str_lower e) = some u →
      u.is_active = false →
      lockActive u.locked_until now = false →
      verify_password pw u.password_hash = true →
      u.mfa_enabled = false →
      (login db now e pw jti ip ua).2 =
        .ok { access_token := create_access_token u.id now,
              refresh_token := create_refresh_token u.id now jti }) ∧
    (∀ (db : DB) (now : Nat) (t : Token) (jti : Nat) (ip ua : Option String)
      (s : SessionRow) (u : User),
      validate_refresh_token now t = .ok t →
      get_by_token_hash db (hash_token t) = some s →
      get_user_by_id db t.sub = some u →
      u.is_active = false →
      refresh_tokens db now t jti ip ua = (db, .error .InvalidToken)) := by
  constructor
  · intro db now e pw jti ip ua u hfind _hact hl hgood hmfa
    rw [login_good_nomfa_eq db now e pw jti ip ua u hfind hl hgood hmfa]
  · intro db now t jti ip ua s u hval hsess huser hact
    simp only [refresh_tokens, hval, hsess, huser]
    simp [hact]

/-- C9 witness: concrete deactivated account; login issues tokens while
refresh with a matching unrevoked session fails with InvalidToken. -/
theorem login_ignores_is_active_witness :
    ((login ⟨[{ id := 1, email := "a@x.com", password_hash := ⟨"pw"⟩,
                is_active := false }], [], [], [], 0⟩
        3 "a@x.com" "pw" 8 none none).2 =
      .ok { access_token := create_access_token 1 3,
            refresh_token := create_refresh_token 1 3 8 }) ∧
    (refresh_tokens ⟨[{ id := 1, email := "a@x.com", password_hash := ⟨"pw"⟩,
                        is_active := false }],
        [{ id := 0, user_id := 1, token_hash := create_refresh_token 1 0 8,
           expires_at := 10080 }], [], [], 1⟩
      3 (create_refresh_token 1 0 8) 9 none none =
      (⟨[{ id := 1, email := "a@x.com", password_hash := ⟨"pw"⟩,
           is_active := false }],
        [{ id := 0, user_id := 1, token_hash := create_refresh_token 1 0 8,
           expires_at := 10080 }], [], [], 1⟩, .error .InvalidToken)) :=
  ⟨login_ignores_is_active.1 _ 3 "a@x.com" "pw" 8 none none
      { id := 1, email := "a@x.com", password_hash := ⟨"pw"⟩, is_active := false }
      (by decide) rfl rfl (by decide) rfl,
   login_ignores_is_active.2 _ 3 (create_refresh_token 1 0 8) 9 none none
      { id := 0, user_id := 1, token_hash := create_refresh_token 1 0 8,
        expires_at := 10080 }
      { id := 1, email := "a@x.com", password_hash := ⟨"pw"⟩, is_active := false }
      rfl (by decide) (by decide) rfl⟩

/-- C10: `failed_login_attempts` is never reset by the mere lapse of the
lockout window: for an account with at least `MAX_FAILED_ATTEMPTS` failures
whose `locked_until` has elapsed, a single further failed attempt
immediately sets a fresh `locked_until = now + LOCKOUT_DURATION_MINUTES`. -/
theorem single_failure_relocks :
    ∀ (db : DB) (now : Nat) (e pw : String) (jti : Nat) (ip ua : Option String)
      (u : User) (lu : Nat),
      get_by_email db (str_lower e) = some u →
      MAX_FAILED_ATTEMPTS ≤ u.failed_login_attempts →
      u.locked_until = some lu →
      lu ≤ now →
      verify_password pw u.password_hash = false →
      login db now e pw jti ip ua =
        (update_user db
          { u with failed_login_attempts := u.failed_login_attempts + 1
                   locked_until := some (now + LOCKOUT_DURATION_MINUTES) },
         .error .InvalidCredentials) := by
  intro db now e pw jti ip ua u lu hfind hfla hlu hel hbad
  have hl : lockActive u.locked_until now = false := by
    rw [hlu]
    simp [lockActive]
    omega
  rw [login_bad_password_eq db now e pw jti ip ua u hfind hl hbad]
  unfold handle_failed_login
  have hc : MAX_FAILED_ATTEMPTS ≤ u.failed_login_attempts + 1 :=
    Nat.le_succ_of_le hfla
  simp [hc]

/-- C10 witness: an account with five prior failures and an elapsed lock
re-locks after one further failed attempt. -/
theorem single_failure_relocks_witness :
    login ⟨[{ id := 1, email := "a@x.com", password_hash := ⟨"pw"⟩,
              failed_login_attempts := 5, locked_until := some 10 }], [], [], [], 0⟩
      40 "a@x.com" "wrong" 0 none none =
      (update_user ⟨[{ id := 1, email := "a@x.com", password_hash := ⟨"pw"⟩,
                       failed_login_attempts := 5, locked_until := some 10 }],
                    [], [], [], 0⟩
        { id := 1, email := "a@x.com", password_hash := ⟨"pw"⟩,
          failed_login_attempts := 6, locked_until := some 70 },
       .error .InvalidCredentials) :=
  single_failure_relocks _ 40 "a@x.com" "wrong" 0 none none
    { id := 1, email := "a@x.com", password_hash := ⟨"pw"⟩,
      failed_login_attempts := 5, locked_until := some 10 } 10
    (by decide) (by decide) rfl (by decide) (by decide)

/-- C1 counterexample: a concrete account with three failed attempts, a set
`locked_until` and one active session. `change_password` succeeds but the
lockout counters stay at 3 / set, the session row stays unrevoked, and a
refresh token issued before the change still succeeds afterwards. -/
theorem change_password_no_reset_no_revocation_cex :
    change_password
      ⟨[{ id := 1, email := "alice@x.com", password_hash := ⟨"old"⟩,
          failed_login_attempts := 3, locked_until := some 100 }],
       [{ id := 0, user_id := 1, token_hash := create_refresh_token 1 0 42,
          expires_at := 10080 }], [], [], 1⟩
      50
      { id := 1, email := "alice@x.com", password_hash := ⟨"old"⟩,
        failed_login_attempts := 3, locked_until := some 100 }
      "old" "new" =
      (⟨[{ id := 1, email := "alice@x.com", password_hash := ⟨"new"⟩,
           failed_login_attempts := 3, locked_until := some 100,
           last_password_change := some 50 }],
        [{ id := 0, user_id := 1, token_hash := create_refresh_token 1 0 42,
           expires_at := 10080 }], [], [], 1⟩, .ok ()) ∧
    (refresh_tokens
      ⟨[{ id := 1, email := "alice@x.com", password_hash := ⟨"new"⟩,
          failed_login_attempts := 3, locked_until := some 100,
          last_password_change := some 50 }],
       [{ id := 0, user_id := 1, token_hash := create_refresh_token 1 0 42,
          expires_at := 10080 }], [], [], 1⟩
      60 (create_refresh_token 1 0 42) 7 none none).2 =
      .ok { access_token := create_access_token 1 60,
            refresh_token := create_refresh_token 1 60 7 } :=
  ⟨rfl, rfl⟩

/-- C1 (amended): after `change_password` succeeds, exactly `password_hash`
and `last_password_change` of the user row are updated; the flushed row
keeps the prior `failed_login_attempts` and `locked_until`, and the session
and recovery-code tables are untouched (no session is revoked). -/
theorem change_password_updates_only_password :
    ∀ (db : DB) (now : Nat) (u : User) (cur npw : String),
      verify_password cur u.password_hash = true →
      change_password db now u cur npw =
        (update_user db { u with password_hash := hash_password npw
                                 last_password_change := some now }, .ok ()) ∧
      (change_password db now u cur npw).1.sessions = db.sessions ∧
      (change_password db now u cur npw).1.recovery_codes = db.recovery_codes := by
  intro db now u cur npw h
  refine ⟨?_, ?_, ?_⟩ <;> simp [change_password, h, update_user]

/-- C1 witness: concrete instantiation of the amended change-password
behavior on a one-user store. -/
theorem change_password_updates_only_password_witness :
    change_password ⟨[{ id := 1, email := "a@x.com", password_hash := ⟨"old"⟩ }],
        [], [], [], 0⟩ 5
      { id := 1, email := "a@x.com", password_hash := ⟨"old"⟩ } "old" "new" =
      (update_user ⟨[{ id := 1, email := "a@x.com", password_hash := ⟨"old"⟩ }],
          [], [], [], 0⟩
        { id := 1, email := "a@x.com", password_hash := hash_password "new",
          last_password_change := some 5 }, .ok ()) :=
  (change_password_updates_only_password _ 5
    { id := 1, email := "a@x.com", password_hash := ⟨"old"⟩ } "old" "new"
    (by decide)).1

/-- C2 counterexample: an unexpired refresh token with an invalid signature
is rejected by the orchestrator as TokenExpired (the claim requires
InvalidToken), and an expired, well-signed mfa_pending token is rejected by
`verify_mfa_login` as InvalidToken (the claim requires TokenExpired). -/
theorem token_error_conflation_cex :
    refresh_tokens ⟨[], [], [], [], 0⟩ 5
        { sub := 1, iat := 0, exp := 100, typ := .refresh, jti := 0,
          wellSigned := false }
        0 none none =
      (⟨[], [], [], [], 0⟩, .error .TokenExpired) ∧
    verify_mfa_login ⟨[], [], [], [], 0⟩ 10 (fun _ _ => true)
        { sub := 1, iat := 0, exp := 3, typ := .mfa_pending, jti := 0,
          wellSigned := true }
        "000000" 0 none none =
      (⟨[], [], [], [], 0⟩, .error .InvalidToken) :=
  ⟨rfl, rfl⟩

/-- C2 (amended): the security layer itself distinguishes the failure
kinds (ExpiredSignature exactly when the signature is valid and `exp` has
passed; Invalid exactly on a bad signature or, for an unexpired token, a
wrong `type` claim), but the orchestrator conflates them: `refresh_tokens`
surfaces every refresh-token validation failure as TokenExpired, and
`verify_mfa_login` surfaces every mfa_pending validation failure (including
expiry) as InvalidToken. -/
theorem token_validation_error_mapping :
    ∀ (now : Nat) (t : Token),
      (validate_refresh_token now t = .error .ExpiredSignature ↔
        t.wellSigned = true ∧ t.exp ≤ now) ∧
      (validate_refresh_token now t = .error .Invalid ↔
        t.wellSigned = false ∨ (now < t.exp ∧ t.typ ≠ .refresh)) ∧
      (validate_mfa_token now t = .error .ExpiredSignature ↔
        t.wellSigned = true ∧ t.exp ≤ now) ∧
      (validate_mfa_token now t = .error .Invalid ↔
        t.wellSigned = false ∨ (now < t.exp ∧ t.typ ≠ .mfa_pending)) ∧
      (∀ (db : DB) (jti : Nat) (ip ua : Option String) (err : JWTError),
        validate_refresh_token now t = .error err →
        refresh_tokens db now t jti ip ua = (db, .error .TokenExpired)) ∧
      (∀ (db : DB) (f : Nat → String → Bool) (c : String) (jti : Nat)
        (ip ua : Option String) (err : JWTError),
        validate_mfa_token now t = .error err →
        verify_mfa_login db now f t c jti ip ua = (db, .error .InvalidToken)) := by
  intro now t
  refine ⟨?_, ?_, ?_, ?_, ?_, ?_⟩
  · unfold validate_refresh_token decode_token
    by_cases hw : t.wellSigned = true
    · by_cases he : t.exp ≤ now
      · simp [hw, he]
      · by_cases ht : t.typ = .refresh <;> simp [hw, he, ht]
    · have hw2 : t.wellSigned = false := by rwa [Bool.not_eq_true] at hw
      simp [hw2]
  · unfold validate_refresh_token decode_token
    by_cases hw : t.wellSigned = true
    · by_cases he : t.exp ≤ now
      · simp [hw, he, Nat.not_lt.mpr he]
      · by_cases ht : t.typ = .refresh <;>
          simp [hw, he, ht, Nat.lt_of_not_le he]
    · have hw2 : t.wellSigned = false := by rwa [Bool.not_eq_true] at hw
      simp [hw2]
  · unfold validate_mfa_token decode_token
    by_cases hw : t.wellSigned = true
    · by_cases he : t.exp ≤ now
      · simp [hw, he]
      · by_cases ht : t.typ = .mfa_pending <;> simp [hw, he, ht]
    · have hw2 : t.wellSigned = false := by rwa [Bool.not_eq_true] at hw
      simp [hw2]
  · unfold validate_mfa_token decode_token
    by_cases hw : t.wellSigned = true
    · by_cases he : t.exp ≤ now
      · simp [hw, he, Nat.not_lt.mpr he]
      · by_cases ht : t.typ = .mfa_pending <;>
          simp [hw, he, ht, Nat.lt_of_not_le he]
    · have hw2 : t.wellSigned = false := by rwa [Bool.not_eq_true] at hw
      simp [hw2]
  · intro db jti ip ua err hval
    simp only [refresh_tokens, hval]
  · intro db f c jti ip ua err hval
    simp only [verify_mfa_login, hval]

/-- C2 witness: an expired, well-signed mfa_pending token is classified as
ExpiredSignature by the security layer, yet `verify_mfa_login` surfaces it
as InvalidToken. -/
theorem token_validation_error_mapping_witness :
    validate_mfa_token 10
        { sub := 1, iat := 0, exp := 3, typ := .mfa_pending, jti := 0,
          wellSigned := true } = .error .ExpiredSignature ∧
    verify_mfa_login ⟨[], [], [], [], 0⟩ 10 (fun _ _ => false)
        { sub := 1, iat := 0, exp := 3, typ := .mfa_pending, jti := 0,
          wellSigned := true }
        "1" 0 none none = (⟨[], [], [], [], 0⟩, .error .InvalidToken) :=
  ⟨rfl,
   (token_validation_error_mapping 10
      { sub := 1, iat := 0, exp := 3, typ := .mfa_pending, jti := 0,
        wellSigned := true }).2.2.2.2.2
     ⟨[], [], [], [], 0⟩ (fun _ _ => false) "1" 0 none none
     .ExpiredSignature rfl⟩

/-- C3 counterexample: a locked account (lock elapsed) with MFA enabled.
A correct password alone, while the MFA challenge is still pending, clears
`locked_until` (and the failure counter): the login returns the
MFA-required signal, not a completed authentication, yet the lock is gone. -/
theorem mfa_pending_clears_lockout_cex :
    login ⟨[{ id := 1, email := "alice@x.com", password_hash := ⟨"pw"⟩,
              mfa_enabled := true, mfa_secret := some 7,
              failed_login_attempts := 5, locked_until := some 100 }],
           [], [], [], 0⟩
      200 "alice@x.com" "pw" 0 none none =
      (⟨[{ id := 1, email := "alice@x.com", password_hash := ⟨"pw"⟩,
           mfa_enabled := true, mfa_secret := some 7,
           failed_login_attempts := 0, locked_until := none }],
        [], [], [], 0⟩,
       .error (.MFARequired (create_mfa_token 1 200))) := rfl

/-- C3 (amended): `locked_until` is cleared by any successful password
verification inside `login` — even when an MFA challenge is still pending —
and by a confirmed password reset; the other identity-core operations
(`refresh_tokens`, `verify_mfa_login`, `verify_recovery_code_login`,
`change_password`) never modify any user's `locked_until`. -/
theorem locked_until_clearing :
    (∀ (db : DB) (now : Nat) (e pw : String) (jti : Nat) (ip ua : Option String)
      (u : User),
      get_by_email db (str_lower e) = some u →
      lockActive u.locked_until now = false →
      verify_password pw u.password_hash = true →
      (login db now e pw jti ip ua).1.users =
        (update_user db
          { u with failed_login_attempts := 0, locked_until := none }).users) ∧
    (∀ (db : DB) (now : Nat) (t : Token) (jti : Nat) (ip ua : Option String),
      (refresh_tokens db now t jti ip ua).1.users = db.users) ∧
    (∀ (db : DB) (now : Nat) (f : Nat → String → Bool) (t : Token) (c : String)
      (jti : Nat) (ip ua : Option String),
      (verify_mfa_login db now f t c jti ip ua).1.users = db.users) ∧
    (∀ (db : DB) (now : Nat) (t : Token) (c : String) (jti : Nat)
      (ip ua : Option String),
      (verify_recovery_code_login db now t c jti ip ua).1.users = db.users) ∧
    (∀ (db : DB) (now : Nat) (u : User) (cur npw : String),
      verify_password cur u.password_hash = true →
      ((change_password db now u cur npw).1.users.map User.locked_until) =
        db.users.map
          (fun v => if v.id == u.id then u.locked_until else v.locked_until)) ∧
    (∀ (db : DB) (now : Nat) (tok npw : String),
      (confirm_password_reset db now tok npw).2 = .ok () →
      ∃ u ∈ db.users,
        (confirm_password_reset db now tok npw).1.users =
          (update_user db { u with password_hash := hash_password npw
                                   last_password_change := some now
                                   failed_login_attempts := 0
                                   locked_until := none }).users) := by
  refine ⟨?_, ?_, ?_, ?_, ?_, ?_⟩
  · intro db now e pw jti ip ua u hfind hl hgood
    by_cases hm : u.mfa_enabled = true
    · rw [login_good_mfa_eq db now e pw jti ip ua u hfind hl hgood hm]
    · rw [login_good_nomfa_eq db now e pw jti ip ua u hfind hl hgood
        (Bool.not_eq_true _ ▸ hm)]
      rfl
  · intro db now t jti ip ua
    unfold refresh_tokens
    split
    · rfl
    · split
      · rfl
      · split
        · rfl
        · split
          · rfl
          · simp [create_tokens, create_session_row, revoke_session]
  · intro db now f t c jti ip ua
    unfold verify_mfa_login
    split
    · rfl
    · split
      · rfl
      · split
        · rfl
        · split
          · rfl
          · simp [create_tokens, create_session_row]
  · intro db now t c jti ip ua
    unfold verify_recovery_code_login
    split
    · rfl
    · split
      · rfl
      · split
        · rfl
        · simp [create_tokens, create_session_row, mark_code_used]
  · intro db now u cur npw h
    have hcp : change_password db now u cur npw =
        (update_user db { u with password_hash := hash_password npw
                                 last_password_change := some now }, .ok ()) := by
      unfold change_password
      simp [h]
    rw [hcp]
    simp only [update_user, List.map_map]
    refine List.map_congr_left ?_
    intro v _hv
    by_cases hid : v.id = u.id
    · simp [hid]
    · simp [hid]
  · intro db now tok npw hok
    cases hrt : get_reset_by_hash db (sha256_hex tok) with
    | none => simp [confirm_password_reset, hrt] at hok
    | some rt =>
      by_cases h1 : rt.used_at = none
      · by_cases h2 : rt.expires_at < now
        · simp [confirm_password_reset, hrt, h1, h2] at hok
        · cases huser : get_user_by_id db rt.user_id with
          | none => simp [confirm_password_reset, hrt, h1, h2, huser] at hok
          | some u =>
            refine ⟨u, List.mem_of_find?_eq_some huser, ?_⟩
            simp [confirm_password_reset, hrt, h1, h2, huser, update_user,
              mark_reset_used, revoke_all_user_sessions]
      · simp [confirm_password_reset, hrt, h1] at hok

/-- C3 witness: concrete instantiation — a correct password on a
lock-elapsed MFA account leaves the store with the lock cleared. -/
theorem locked_until_clearing_witness :
    (login ⟨[{ id := 1, email := "bob@x.com", password_hash := ⟨"pw"⟩,
               mfa_enabled := true, mfa_secret := some 7,
               failed_login_attempts := 5, locked_until := some 100 }],
            [], [], [], 0⟩
      200 "bob@x.com" "pw" 0 none none).1.users =
      (update_user
        ⟨[{ id := 1, email := "bob@x.com", password_hash := ⟨"pw"⟩,
            mfa_enabled := true, mfa_secret := some 7,
            failed_login_attempts := 5, locked_until := some 100 }],
         [], [], [], 0⟩
        { id := 1, email := "bob@x.com", password_hash := ⟨"pw"⟩,
          mfa_enabled := true, mfa_secret := some 7,
          failed_login_attempts := 0, locked_until := none }).users :=
  locked_until_clearing.1 _ 200 "bob@x.com" "pw" 0 none none
    { id := 1, email := "bob@x.com", password_hash := ⟨"pw"⟩,
      mfa_enabled := true, mfa_secret := some 7,
      failed_login_attempts := 5, locked_until := some 100 }
    (by decide) rfl (by decide)

/-- C4 counterexample: a session row whose `expires_at` (10) is already in
the past at call time (20) while the refresh JWT itself is still valid —
the claim requires InvalidToken and no new tokens, but the refresh succeeds
and rotates. -/
theorem refresh_ignores_session_expiry_cex :
    (refresh_tokens
      ⟨[{ id := 1, email := "alice@x.com", password_hash := ⟨"pw"⟩ }],
       [{ id := 0, user_id := 1, token_hash := create_refresh_token 1 0 99,
          expires_at := 10 }], [], [], 1⟩
      20 (create_refresh_token 1 0 99) 7 none none).2 =
      .ok { access_token := create_access_token 1 20,
            refresh_token := create_refresh_token 1 20 7 } := rfl

/-- C4 (amended): with a validating refresh token, an absent session row —
and in particular a revoked one, since the lookup filters revoked rows —
yields InvalidToken with the store unchanged; but the session row's
`expires_at` is never consulted: any unrevoked matching row (even one whose
`expires_at` is past) lets the refresh succeed, session expiry being
enforced solely through the JWT `exp` claim. -/
theorem refresh_session_checks :
    ∀ (db : DB) (now : Nat) (t : Token) (jti : Nat) (ip ua : Option String)
      (p : Token),
      validate_refresh_token now t = .ok p →
      ((get_by_token_hash db (hash_token t) = none →
        refresh_tokens db now t jti ip ua = (db, .error .InvalidToken)) ∧
       ((∀ s ∈ db.sessions, s.token_hash = hash_token t → s.revoked_at ≠ none) →
        refresh_tokens db now t jti ip ua = (db, .error .InvalidToken)) ∧
       (∀ (s : SessionRow) (u : User),
        get_by_token_hash db (hash_token t) = some s →
        get_user_by_id db t.sub = some u →
        u.is_active = true →
        (refresh_tokens db now t jti ip ua).2 =
          .ok { access_token := create_access_token u.id now,
                refresh_token := create_refresh_token u.id now jti })) := by
  intro db now t jti ip ua p hval
  obtain ⟨hp, hw, he, ht⟩ := (validate_refresh_token_ok_iff now t p).mp hval
  rw [hp] at hval
  refine ⟨?_, ?_, ?_⟩
  · intro hnone
    simp only [refresh_tokens, hval, hnone]
  · intro hall
    have hnone : get_by_token_hash db (hash_token t) = none := by
      unfold get_by_token_hash
      rw [List.find?_eq_none]
      intro s hs
      by_cases hth : s.token_hash = hash_token t
      · have hrv := hall s hs hth
        simp [hth, hrv]
      · simp [hth]
    simp only [refresh_tokens, hval, hnone]
  · intro s u hsess huser hact
    simp only [refresh_tokens, hval, hsess, huser]
    simp [hact, create_tokens]

/-- C4 witness: a validating refresh token with no matching session row is
rejected with InvalidToken and the store is unchanged. -/
theorem refresh_session_checks_witness :
    refresh_tokens ⟨[], [], [], [], 0⟩ 5 (create_refresh_token 1 0 3) 0 none none =
      (⟨[], [], [], [], 0⟩, .error .InvalidToken) :=
  ((refresh_session_checks ⟨[], [], [], [], 0⟩ 5 (create_refresh_token 1 0 3)
      0 none none (create_refresh_token 1 0 3) rfl).1) rfl

/-- C6: refresh-token rotation. When `refresh_tokens` succeeds on token `t`
(revoking its session, rotating), a second call with the same `t` — while
`t` itself is still within its JWT validity and the fresh `jti` differs
from `t`'s — fails with InvalidToken and leaves the store unchanged. The
uniqueness hypothesis mirrors the `scalar_one_or_none` contract of the
session lookup (at most one unrevoked row per token hash). -/
theorem refresh_tokens_ok_elim (db db1 : DB) (now : Nat) (t : Token) (jti : Nat)
    (ip ua : Option String) (tr : TokenResponse)
    (h1 : refresh_tokens db now t jti ip ua = (db1, .ok tr)) :
    ∃ sess user,
      validate_refresh_token now t = .ok t ∧
      get_by_token_hash db (hash_token t) = some sess ∧
      get_user_by_id db t.sub = some user ∧
      user.is_active = true ∧
      db1 = (create_tokens (revoke_session db sess.id now) user now jti ip ua).1 := by
  rw [refresh_tokens] at h1
  split at h1
  · exact absurd (congrArg Prod.snd h1) (by simp)
  · rename_i p hval
    split at h1
    · exact absurd (congrArg Prod.snd h1) (by simp)
    · rename_i sess hsess
      split at h1
      · exact absurd (congrArg Prod.snd h1) (by simp)
      · rename_i user huser
        split at h1
        · exact absurd (congrArg Prod.snd h1) (by simp)
        · rename_i hact
          obtain ⟨hp, _, _, _⟩ := (validate_refresh_token_ok_iff now t p).mp hval
          subst hp
          have hact2 : user.is_active = true := by
            by_cases hb : user.is_active = true
            · exact hb
            · exact absurd hb (by simpa using hact)
          have hdb := congrArg Prod.fst h1
          exact ⟨sess, user, hval, hsess, huser, hact2, hdb.symm⟩

/-- C6: refresh-token rotation. When `refresh_tokens` succeeds on token `t`
(revoking its session, rotating), a second call with the same `t` — while
`t` itself is still within its JWT validity and the fresh `jti` differs
from `t`'s — fails with InvalidToken and leaves the store unchanged. The
uniqueness hypothesis mirrors the `scalar_one_or_none` contract of the
session lookup (at most one unrevoked row per token hash). -/
theorem refresh_rotation_single_use :
    ∀ (db db1 : DB) (now now2 : Nat) (t : Token) (jti jti2 : Nat)
      (ip ua ip2 ua2 : Option String) (tr : TokenResponse),
      refresh_tokens db now t jti ip ua = (db1, .ok tr) →
      (∀ s1 ∈ db.sessions, ∀ s2 ∈ db.sessions,
        s1.token_hash = hash_token t → s2.token_hash = hash_token t →
        s1.revoked_at = none → s2.revoked_at = none → s1 = s2) →
      now2 < t.exp →
      jti ≠ t.jti →
      refresh_tokens db1 now2 t jti2 ip2 ua2 = (db1, .error .InvalidToken) := by
  intro db db1 now now2 t jti jti2 ip ua ip2 ua2 tr h1 huniq h2 hjti
  obtain ⟨sess, user, hok, hsess, _huser, _hact, hdb⟩ :=
    refresh_tokens_ok_elim db db1 now t jti ip ua tr h1
  obtain ⟨_, hw, _hexp, htyp⟩ := (validate_refresh_token_ok_iff now t t).mp hok
  have hsmem : sess ∈ db.sessions := List.mem_of_find?_eq_some hsess
  have hsprop := List.find?_some hsess
  have hsth : sess.token_hash = hash_token t := by
    simp only [Bool.and_eq_true, beq_iff_eq] at hsprop
    exact hsprop.1
  have hsrv : sess.revoked_at = none := by
    simp only [Bool.and_eq_true, beq_iff_eq] at hsprop
    exact hsprop.2
  subst hdb
  have hok2 : validate_refresh_token now2 t = .ok t :=
    (validate_refresh_token_ok_iff now2 t t).mpr ⟨rfl, hw, h2, htyp⟩
  have hnone : get_by_token_hash
      ((create_tokens (revoke_session db sess.id now) user now jti ip ua).1)
      (hash_token t) = none := by
    unfold get_by_token_hash create_tokens create_session_row revoke_session
    rw [List.find?_eq_none]
    intro x hx
    simp only [List.mem_append, List.mem_map, List.mem_singleton] at hx
    rcases hx with ⟨s0, hs0, hmap⟩ | hx
    · by_cases hid : (s0.id == sess.id) = true
      · rw [if_pos hid] at hmap
        rw [← hmap]
        simp
      · rw [if_neg hid] at hmap
        subst hmap
        intro hpx
        simp only [Bool.and_eq_true, beq_iff_eq] at hpx
        have heq := huniq s0 hs0 sess hsmem hpx.1 hsth hpx.2 hsrv
        rw [heq] at hid
        simp at hid
    · subst hx
      intro hpx
      simp only [Bool.and_eq_true, beq_iff_eq] at hpx
      have hth := hpx.1
      have : jti = t.jti := congrArg Token.jti hth
      exact hjti this
  simp only [refresh_tokens, hok2, hnone]

/-- C6 witness: concrete rotation — a successful refresh revokes the
session, so presenting the same refresh token again yields InvalidToken. -/
theorem refresh_rotation_single_use_witness :
    refresh_tokens
      (refresh_tokens
        ⟨[{ id := 1, email := "a@x.com", password_hash := ⟨"pw"⟩ }],
         [{ id := 0, user_id := 1, token_hash := create_refresh_token 1 0 99,
            expires_at := 10080 }], [], [], 1⟩
        20 (create_refresh_token 1 0 99) 7 none none).1
      25 (create_refresh_token 1 0 99) 8 none none =
      ((refresh_tokens
        ⟨[{ id := 1, email := "a@x.com", password_hash := ⟨"pw"⟩ }],
         [{ id := 0, user_id := 1, token_hash := create_refresh_token 1 0 99,
            expires_at := 10080 }], [], [], 1⟩
        20 (create_refresh_token 1 0 99) 7 none none).1,
       .error .InvalidToken) :=
  refresh_rotation_single_use
    ⟨[{ id := 1, email := "a@x.com", password_hash := ⟨"pw"⟩ }],
     [{ id := 0, user_id := 1, token_hash := create_refresh_token 1 0 99,
        expires_at := 10080 }], [], [], 1⟩
    _ 20 25 (create_refresh_token 1 0 99) 7 8 none none none none
    (create_tokens
      (revoke_session
        ⟨[{ id := 1, email := "a@x.com", password_hash := ⟨"pw"⟩ }],
         [{ id := 0, user_id := 1, token_hash := create_refresh_token 1 0 99,
            expires_at := 10080 }], [], [], 1⟩ 0 20)
      { id := 1, email := "a@x.com", password_hash := ⟨"pw"⟩ } 20 7
      none none).2
    rfl (by decide) (by decide) (by decide)

/-- C7: a recovery code is consumable at most once. If exactly one stored
unused code of the account matches the submitted code's hash, the first
recovery login succeeds and moves exactly that record's `used_at` from
null to `some now`; a second recovery login with the same code (same still
valid mfa_pending token) fails with InvalidMFACode and leaves the store
unchanged. -/
theorem recovery_code_single_use :
    ∀ (db : DB) (now now2 : Nat) (t : Token) (code : String)
      (jti jti2 : Nat) (ip ua ip2 ua2 : Option String) (u : User)
      (rec : MFARecoveryCode),
      validate_mfa_token now t = .ok t →
      now2 < t.exp →
      get_user_by_id db t.sub = some u →
      rec ∈ db.recovery_codes →
      rec.user_id = u.id →
      rec.used_at = none →
      verify_recovery_code code rec.code_hash = true →
      (∀ c ∈ db.recovery_codes, c.user_id = u.id → c.used_at = none →
        verify_recovery_code code c.code_hash = true → c = rec) →
      ((∃ tr, (verify_recovery_code_login db now t code jti ip ua).2 = .ok tr) ∧
       (verify_recovery_code_login db now t code jti ip ua).1.recovery_codes =
         db.recovery_codes.map
           (fun c => if c.id == rec.id then { c with used_at := some now }
                     else c) ∧
       verify_recovery_code_login
           (verify_recovery_code_login db now t code jti ip ua).1 now2 t code
           jti2 ip2 ua2 =
         ((verify_recovery_code_login db now t code jti ip ua).1,
          .error .InvalidMFACode)) := by
  intro db now now2 t code jti jti2 ip ua ip2 ua2 u rec
    hval h2 huser hmem huid hunused hver huniq
  obtain ⟨_, hw, _hexp, htyp⟩ := (validate_mfa_token_ok_iff now t t).mp hval
  have hfind : (get_unused_codes db u.id).find?
      (fun c => verify_recovery_code code c.code_hash) = some rec := by
    apply find?_eq_some_of_unique
    · unfold get_unused_codes
      refine List.mem_filter.mpr ⟨hmem, ?_⟩
      simp [huid, hunused]
    · exact hver
    · intro x hx hpx
      obtain ⟨hx1, hx3⟩ := List.mem_filter.mp hx
      simp only [Bool.and_eq_true, beq_iff_eq] at hx3
      exact huniq x hx1 hx3.1 hx3.2 hpx
  have hr1 : verify_recovery_code_login db now t code jti ip ua =
      ((create_tokens (mark_code_used db rec.id now) u now jti ip ua).1,
       .ok (create_tokens (mark_code_used db rec.id now) u now jti ip ua).2) := by
    simp only [verify_recovery_code_login, hval, huser, hfind]
  have hcodes : (create_tokens (mark_code_used db rec.id now) u now jti ip ua).1.recovery_codes =
      db.recovery_codes.map
        (fun c => if c.id == rec.id then { c with used_at := some now } else c) := by
    simp [create_tokens, create_session_row, mark_code_used]
  have husers : (create_tokens (mark_code_used db rec.id now) u now jti ip ua).1.users =
      db.users := by
    simp [create_tokens, create_session_row, mark_code_used]
  refine ⟨⟨(create_tokens (mark_code_used db rec.id now) u now jti ip ua).2,
      by rw [hr1]⟩, by rw [hr1]; exact hcodes, ?_⟩
  rw [hr1]
  have hval2 : validate_mfa_token now2 t = .ok t :=
    (validate_mfa_token_ok_iff now2 t t).mpr ⟨rfl, hw, h2, htyp⟩
  have huser2 : get_user_by_id
      ((create_tokens (mark_code_used db rec.id now) u now jti ip ua).1) t.sub =
      some u := by
    unfold get_user_by_id at huser ⊢
    rw [husers]
    exact huser
  have hfind2 : (get_unused_codes
      ((create_tokens (mark_code_used db rec.id now) u now jti ip ua).1) u.id).find?
      (fun c => verify_recovery_code code c.code_hash) = none := by
    rw [List.find?_eq_none]
    intro x hx
    obtain ⟨hx1, hx3⟩ := List.mem_filter.mp hx
    simp only [Bool.and_eq_true, beq_iff_eq] at hx3
    rw [hcodes] at hx1
    obtain ⟨c0, hc0, hxeq⟩ := List.mem_map.mp hx1
    by_cases hid : (c0.id == rec.id) = true
    · rw [if_pos hid] at hxeq
      rw [← hxeq] at hx3
      simp at hx3
    · rw [if_neg hid] at hxeq
      subst hxeq
      intro hpx
      have := huniq c0 hc0 hx3.1 hx3.2 hpx
      rw [this] at hid
      simp at hid
  simp only [verify_recovery_code_login, hval2, huser2, hfind2]

/-- C7 witness: a concrete account with one unused recovery code: the first
recovery login with code "abcd1234" (stored hashed from "ABCD-1234")
consumes it; the second attempt with the same code fails. -/
theorem recovery_code_single_use_witness :
    verify_recovery_code_login
      (verify_recovery_code_login
        ⟨[{ id := 1, email := "a@x.com", password_hash := ⟨"pw"⟩,
            mfa_enabled := true, mfa_secret := some 9 }],
         [], [{ id := 0, user_id := 1,
                code_hash := hash_recovery_code "ABCD-1234" }], [], 1⟩
        1 (create_mfa_token 1 0) "abcd1234" 0 none none).1
      2 (create_mfa_token 1 0) "abcd1234" 0 none none =
      ((verify_recovery_code_login
        ⟨[{ id := 1, email := "a@x.com", password_hash := ⟨"pw"⟩,
            mfa_enabled := true, mfa_secret := some 9 }],
         [], [{ id := 0, user_id := 1,
                code_hash := hash_recovery_code "ABCD-1234" }], [], 1⟩
        1 (create_mfa_token 1 0) "abcd1234" 0 none none).1,
       .error .InvalidMFACode) :=
  (recovery_code_single_use
    ⟨[{ id := 1, email := "a@x.com", password_hash := ⟨"pw"⟩,
        mfa_enabled := true, mfa_secret := some 9 }],
     [], [{ id := 0, user_id := 1,
            code_hash := hash_recovery_code "ABCD-1234" }], [], 1⟩
    1 2 (create_mfa_token 1 0) "abcd1234" 0 0 none none none none
    { id := 1, email := "a@x.com", password_hash := ⟨"pw"⟩,
      mfa_enabled := true, mfa_secret := some 9 }
    { id := 0, user_id := 1, code_hash := hash_recovery_code "ABCD-1234" }
    rfl (by decide) (by decide) (by decide) rfl rfl (by decide)
    (by decide)).2.2

/-- C5: after exactly five consecutive failed logins on an initially clean
account, each failure increments `failed_login_attempts`, the fifth sets
`locked_until = n5 + LOCKOUT_DURATION_MINUTES` (with MAX_FAILED_ATTEMPTS =
5 and LOCKOUT_DURATION_MINUTES = 30), the sixth attempt fails with
AccountLocked even with the correct password, stays AccountLocked for any
instant before `locked_until`, and is no longer AccountLocked once
`locked_until` has elapsed. -/
theorem lockout_after_five_failed_logins :
    ∀ (db : DB) (e pwb : String) (u : User) (n1 n2 n3 n4 n5 : Nat)
      (d1 d2 d3 d4 d5 : DB),
      get_by_email db (str_lower e) = some u →
      u.failed_login_attempts = 0 →
      u.locked_until = none →
      verify_password pwb u.password_hash = false →
      d1 = (login db n1 e pwb 0 none none).1 →
      d2 = (login d1 n2 e pwb 0 none none).1 →
      d3 = (login d2 n3 e pwb 0 none none).1 →
      d4 = (login d3 n4 e pwb 0 none none).1 →
      d5 = (login d4 n5 e pwb 0 none none).1 →
      ((login db n1 e pwb 0 none none).2 = .error .InvalidCredentials ∧
       (login d1 n2 e pwb 0 none none).2 = .error .InvalidCredentials ∧
       (login d2 n3 e pwb 0 none none).2 = .error .InvalidCredentials ∧
       (login d3 n4 e pwb 0 none none).2 = .error .InvalidCredentials ∧
       (login d4 n5 e pwb 0 none none).2 = .error .InvalidCredentials) ∧
      get_by_email d1 (str_lower e) =
        some { u with failed_login_attempts := 1 } ∧
      get_by_email d2 (str_lower e) =
        some { u with failed_login_attempts := 2 } ∧
      get_by_email d3 (str_lower e) =
        some { u with failed_login_attempts := 3 } ∧
      get_by_email d4 (str_lower e) =
        some { u with failed_login_attempts := 4 } ∧
      get_by_email d5 (str_lower e) =
        some { u with failed_login_attempts := 5
                      locked_until := some (n5 + LOCKOUT_DURATION_MINUTES) } ∧
      MAX_FAILED_ATTEMPTS = 5 ∧
      LOCKOUT_DURATION_MINUTES = 30 ∧
      (∀ (pw : String) (n6 jti : Nat) (ip ua : Option String),
        n6 < n5 + LOCKOUT_DURATION_MINUTES →
        login d5 n6 e pw jti ip ua =
          (d5, .error (.AccountLocked (n5 + LOCKOUT_DURATION_MINUTES)))) ∧
      (∀ (pw : String) (n7 jti : Nat) (ip ua : Option String) (lu : Nat),
        n5 + LOCKOUT_DURATION_MINUTES ≤ n7 →
        (login d5 n7 e pw jti ip ua).2 ≠ .error (.AccountLocked lu)) := by
  intro db e pwb u n1 n2 n3 n4 n5 d1 d2 d3 d4 d5
    hfind hfla hlock hbad hd1 hd2 hd3 hd4 hd5
  have hstep : ∀ (d : DB) (v : User) (n : Nat),
      get_by_email d (str_lower e) = some v →
      v.password_hash = u.password_hash →
      v.locked_until = none →
      login d n e pwb 0 none none =
        (update_user d
          (if MAX_FAILED_ATTEMPTS ≤ v.failed_login_attempts + 1
           then { v with failed_login_attempts := v.failed_login_attempts + 1
                         locked_until := some (n + LOCKOUT_DURATION_MINUTES) }
           else { v with failed_login_attempts := v.failed_login_attempts + 1 }),
         .error .InvalidCredentials) := by
    intro d v n hf hph hlu
    rw [login_bad_password_eq d n e pwb 0 none none v hf
      (by rw [hlu]; rfl) (by rw [hph]; exact hbad)]
    by_cases hc : MAX_FAILED_ATTEMPTS ≤ v.failed_login_attempts + 1
    · simp [handle_failed_login, hc]
    · simp [handle_failed_login, hc]
  -- attempt 1
  have h1 := hstep db u n1 hfind rfl hlock
  rw [if_neg (by rw [hfla]; decide)] at h1
  simp only [hfla, Nat.zero_add] at h1
  have hfind1 : get_by_email d1 (str_lower e) =
      some { u with failed_login_attempts := 1 } := by
    rw [hd1, h1]
    exact get_by_email_update_user db (str_lower e) u _ hfind rfl rfl
  -- attempt 2
  have h2 := hstep d1 { u with failed_login_attempts := 1 } n2 hfind1 rfl hlock
  rw [if_neg (by simp [MAX_FAILED_ATTEMPTS])] at h2
  have hfind2 : get_by_email d2 (str_lower e) =
      some { u with failed_login_attempts := 2 } := by
    rw [hd2, h2]
    exact get_by_email_update_user d1 (str_lower e) _ _ hfind1 rfl rfl
  -- attempt 3
  have h3 := hstep d2 { u with failed_login_attempts := 2 } n3 hfind2 rfl hlock
  rw [if_neg (by simp [MAX_FAILED_ATTEMPTS])] at h3
  have hfind3 : get_by_email d3 (str_lower e) =
      some { u with failed_login_attempts := 3 } := by
    rw [hd3, h3]
    exact get_by_email_update_user d2 (str_lower e) _ _ hfind2 rfl rfl
  -- attempt 4
  have h4 := hstep d3 { u with failed_login_attempts := 3 } n4 hfind3 rfl hlock
  rw [if_neg (by simp [MAX_FAILED_ATTEMPTS])] at h4
  have hfind4 : get_by_email d4 (str_lower e) =
      some { u with failed_login_attempts := 4 } := by
    rw [hd4, h4]
    exact get_by_email_update_user d3 (str_lower e) _ _ hfind3 rfl rfl
  -- attempt 5: hits the threshold and locks
  have h5 := hstep d4 { u with failed_login_attempts := 4 } n5 hfind4 rfl hlock
  rw [if_pos (by simp [MAX_FAILED_ATTEMPTS])] at h5
  have hfind5 : get_by_email d5 (str_lower e) =
      some { u with failed_login_attempts := 5
                    locked_until := some (n5 + LOCKOUT_DURATION_MINUTES) } := by
    rw [hd5, h5]
    exact get_by_email_update_user d4 (str_lower e) _ _ hfind4 rfl rfl
  refine ⟨⟨by rw [h1], by rw [h2], by rw [h3], by rw [h4], by rw [h5]⟩,
    hfind1, hfind2, hfind3, hfind4, hfind5, rfl, rfl, ?_, ?_⟩
  · intro pw n6 jti ip ua h6
    exact login_locked_eq d5 n6 e pw jti ip ua _ hfind5 (decide_eq_true h6)
  · intro pw n7 jti ip ua lu h7
    have hl7 : lockActive
        (some (n5 + LOCKOUT_DURATION_MINUTES) : Option Nat) n7 = false :=
      decide_eq_false (by omega)
    by_cases hpw : verify_password pw u.password_hash = true
    · by_cases hm : u.mfa_enabled = true
      · rw [login_good_mfa_eq d5 n7 e pw jti ip ua _ hfind5 hl7 hpw hm]
        simp
      · rw [login_good_nomfa_eq d5 n7 e pw jti ip ua _ hfind5 hl7 hpw
          (Bool.not_eq_true _ ▸ hm)]
        simp
    · rw [Bool.not_eq_true] at hpw
      rw [login_bad_password_eq d5 n7 e pw jti ip ua _ hfind5 hl7 hpw]
      simp

/-- C5 witness: a concrete account; five wrong-password logins at instants
1..5, then the sixth attempt with the correct password at instant 20 fails
with AccountLocked 35. -/
theorem lockout_after_five_failed_logins_witness :
    login
      (login
        (login
          (login
            (login
              (login ⟨[{ id := 1, email := "a@x.com",
                         password_hash := ⟨"pw"⟩ }], [], [], [], 0⟩
                1 "a@x.com" "bad" 0 none none).1
              2 "a@x.com" "bad" 0 none none).1
            3 "a@x.com" "bad" 0 none none).1
          4 "a@x.com" "bad" 0 none none).1
        5 "a@x.com" "bad" 0 none none).1
      20 "a@x.com" "pw" 0 none none =
      ((login
        (login
          (login
            (login
              (login ⟨[{ id := 1, email := "a@x.com",
                         password_hash := ⟨"pw"⟩ }], [], [], [], 0⟩
                1 "a@x.com" "bad" 0 none none).1
              2 "a@x.com" "bad" 0 none none).1
            3 "a@x.com" "bad" 0 none none).1
          4 "a@x.com" "bad" 0 none none).1
        5 "a@x.com" "bad" 0 none none).1,
       .error (.AccountLocked 35)) :=
  (lockout_after_five_failed_logins
    ⟨[{ id := 1, email := "a@x.com", password_hash := ⟨"pw"⟩ }], [], [], [], 0⟩
    "a@x.com" "bad"
    { id := 1, email := "a@x.com", password_hash := ⟨"pw"⟩ }
    1 2 3 4 5 _ _ _ _ _
    (by decide) rfl rfl (by decide)
    rfl rfl rfl rfl rfl).2.2.2.2.2.2.2.2.1 "pw" 20 0 none none (by decide)

end GovProposal
